import Mathlib

/-!
Shallow embedding of `pydantic_ai/ext/stackone.py`, the StackOne adapter
for Pydantic AI. Python values exchanged with the dynamically typed
StackOne SDK are modelled by `JsonValue`; Python exceptions raised by the
adapter are modelled by `PyError` through `Except`. The external SDK
itself (class `StackOneToolSet`, its tools collections and the
`create_feedback_tool` factory) is kept abstract: its objects appear as
records of exactly the fields and methods the adapter uses.
-/

/-- Python values (JSON-like) exchanged with the dynamically typed SDK. -/
inductive JsonValue where
  | null : JsonValue
  | bool : Bool → JsonValue
  | num : Int → JsonValue
  | str : String → JsonValue
  | arr : List JsonValue → JsonValue
  | obj : List (String × JsonValue) → JsonValue

/-- First-match lookup in the field list of a Python dict. -/
def JsonValue.lookup_field : List (String × JsonValue) → String → Option JsonValue
  | [], _ => none
  | (k, v) :: rest, key => if k = key then some v else JsonValue.lookup_field rest key

/-- Python subscript `d[key]`: succeeds only on a dict holding the key
(otherwise Python raises, modelled by `none`). -/
def JsonValue.get : JsonValue → String → Option JsonValue
  | .obj fields, key => JsonValue.lookup_field fields key
  | _, _ => none

/-- Python exceptions the adapter can raise. -/
inductive PyError where
  | valueError : String → PyError
  | keyError : String → PyError
deriving DecidableEq

/-- Modelled from the spec: `pydantic_ai.tools.Tool` (not under `src/`):
"a locally-callable function descriptor (name, description, JSON parameter
schema, invocation callback)". -/
structure Tool where
  name : String
  description : String
  json_schema : JsonValue
  function : JsonValue → JsonValue

/-- Modelled from the spec: `Tool.from_schema` (not under `src/`) builds the
descriptor directly from the given callback, name, description and JSON
parameter schema. -/
def Tool.from_schema (function : JsonValue → JsonValue) (name : String)
    (description : String) (json_schema : JsonValue) : Tool :=
  { name := name, description := description, json_schema := json_schema,
    function := function }

/-- The fields and methods of a StackOne SDK tool object that the adapter
reads: `name`, `description` (possibly `None`), `to_openai_function()` and
`execute(arguments)`. -/
structure StackOneTool where
  name : String
  description : Option String
  to_openai_function : JsonValue
  execute : JsonValue → JsonValue

/-- Embedding of `_tool_from_stackone_tool`: reads
`to_openai_function()` and indexes it at `'function'` then `'parameters'`
(a missing key raises `KeyError`), then builds the Pydantic AI tool via
`Tool.from_schema`, the implementation forwarding the keyword-argument
dict to `execute` and the description defaulting to the empty string. -/
def _tool_from_stackone_tool (stackone_tool : StackOneTool) : Except PyError Tool :=
  match stackone_tool.to_openai_function.get "function" with
  | none => .error (.keyError "function")
  | some openai_function_entry =>
    match openai_function_entry.get "parameters" with
    | none => .error (.keyError "parameters")
    | some json_schema =>
      .ok (Tool.from_schema (fun kwargs => stackone_tool.execute kwargs)
        stackone_tool.name
        (match stackone_tool.description with
          | none => ""
          | some d => d)
        json_schema)

/-- Values of the SDK's `hybrid_alpha` parameter; the adapter only forwards
them, so their arithmetic is never used. -/
abbrev Alpha := Rat

/-- The utility-tools collection returned by the SDK's `utility_tools(...)`;
the adapter only calls `get_tool` on it. -/
structure UtilityToolsCollection where
  get_tool : String → Option StackOneTool

/-- The tools collection returned by the SDK's `fetch_tools(actions=...)`:
the adapter iterates it (`items` is the iteration order), looks names up
with `get_tool`, and asks it for `utility_tools(hybrid_alpha=...)`. -/
structure ToolsCollection where
  items : List StackOneTool
  get_tool : String → Option StackOneTool
  utility_tools : Option Alpha → UtilityToolsCollection

/-- Keyword arguments the adapter passes to the SDK constructor
`StackOneToolSet(...)`; `base_url = none` means that keyword was not
passed at all. -/
structure SDKArgs where
  api_key : Option String
  account_id : Option String
  base_url : Option String
deriving DecidableEq

/-- The SDK client object: the adapter only calls
`fetch_tools(actions=...)` on it. -/
structure StackOneToolSet where
  fetch_tools : Option (List String) → ToolsCollection

/-- Keyword arguments the adapter passes to the SDK's
`create_feedback_tool`; `base_url = none` means that keyword was not
passed at all. -/
structure FeedbackArgs where
  api_key : String
  account_id : Option String
  base_url : Option String

/-- Embedding of the idiom found at all three SDK construction sites:
the `base_url` keyword is forwarded only when the value is truthy, so
`None` and the empty string both mean "not passed". -/
def base_url_kwargs (base_url : Option String) : Option String :=
  match base_url with
  | none => none
  | some u => if u = "" then none else some u

/-- The keyword-argument record built for the SDK constructor at every
construction site. -/
def sdk_args (api_key account_id base_url : Option String) : SDKArgs :=
  { api_key := api_key, account_id := account_id,
    base_url := base_url_kwargs base_url }

/-- Message of the `ValueError` raised by `tool_from_stackone`. -/
def tool_not_found_msg (tool_name : String) : String :=
  "Tool " ++ tool_name ++ " not found in StackOne"

/-- Message of the `ValueError` raised by `search_tool`. -/
def tool_search_missing_msg : String :=
  "tool_search not found in StackOne utility tools"

/-- Message of the `ValueError` raised by `execute_tool`. -/
def tool_execute_missing_msg : String :=
  "tool_execute not found in StackOne utility tools"

/-- Message of the `ValueError` raised by `feedback_tool`. -/
def api_key_required_msg : String :=
  "API key is required. Provide it as an argument or set STACKONE_API_KEY environment variable."

/-- Embedding of `tool_from_stackone`: construct the SDK client, fetch with
`actions=[tool_name]`, look that name up, raise `ValueError` when the
lookup yields `None`, and wrap the tool otherwise. The external SDK
constructor is the parameter `ctor`. -/
def tool_from_stackone (ctor : SDKArgs → StackOneToolSet) (tool_name : String)
    (account_id api_key base_url : Option String) : Except PyError Tool :=
  let stackone_toolset := ctor (sdk_args api_key account_id base_url)
  let tools := stackone_toolset.fetch_tools (some [tool_name])
  match tools.get_tool tool_name with
  | none => .error (.valueError (tool_not_found_msg tool_name))
  | some stackone_tool => _tool_from_stackone_tool stackone_tool

/-- Embedding of `search_tool`: ask the collection for its utility tools
(forwarding `hybrid_alpha`), look up `'tool_search'`, raise `ValueError`
when missing, wrap otherwise. -/
def search_tool (tools : ToolsCollection) (hybrid_alpha : Option Alpha) :
    Except PyError Tool :=
  let utility_tools := tools.utility_tools hybrid_alpha
  match utility_tools.get_tool "tool_search" with
  | none => .error (.valueError tool_search_missing_msg)
  | some search => _tool_from_stackone_tool search

/-- Embedding of `execute_tool`: ask the collection for its utility tools
(no `hybrid_alpha` argument), look up `'tool_execute'`, raise `ValueError`
when missing, wrap otherwise. -/
def execute_tool (tools : ToolsCollection) : Except PyError Tool :=
  let utility_tools := tools.utility_tools none
  match utility_tools.get_tool "tool_execute" with
  | none => .error (.valueError tool_execute_missing_msg)
  | some ex => _tool_from_stackone_tool ex

/-- Embedding of `feedback_tool`: resolve the API key (argument first, then
the STACKONE_API_KEY environment variable, modelled by
`stackone_api_key_env`), raise `ValueError` when both are absent, then call
the SDK's `create_feedback_tool` (the parameter) with the resolved key and
wrap its result. -/
def feedback_tool (create_feedback_tool : FeedbackArgs → StackOneTool)
    (stackone_api_key_env : Option String)
    (api_key account_id base_url : Option String) : Except PyError Tool :=
  match (match api_key with
          | some k => some k
          | none => stackone_api_key_env) with
  | none => .error (.valueError api_key_required_msg)
  | some key =>
    _tool_from_stackone_tool (create_feedback_tool
      { api_key := key, account_id := account_id,
        base_url := base_url_kwargs base_url })

/-- The Python type `str | list[str]` of a present `filter_pattern`. -/
inductive FilterPattern where
  | str : String → FilterPattern
  | list : List String → FilterPattern
deriving DecidableEq

/-- The keyword arguments of `StackOneToolset.__init__`. -/
structure ToolsetArgs where
  tools : Option (List String)
  account_id : Option String
  api_key : Option String
  base_url : Option String
  filter_pattern : Option FilterPattern
  include_utility_tools : Bool
  include_feedback_tool : Bool
  hybrid_alpha : Option Alpha
  id : Option String

/-- Embedding of the action-list selection in `StackOneToolset.__init__`:
a given `tools` list takes precedence; otherwise a string
`filter_pattern` is sent as a one-element list, a list is sent as-is, and
`None` stays `None`. -/
def compute_actions (tools : Option (List String))
    (filter_pattern : Option FilterPattern) : Option (List String) :=
  match tools with
  | some tool_names => some tool_names
  | none =>
    match filter_pattern with
    | some (.str s) => some [s]
    | some (.list patterns) => some patterns
    | none => none

/-- The direct-mode loop of `StackOneToolset.__init__`: wrap each fetched
tool in iteration order, propagating the first exception. -/
def wrap_each : List StackOneTool → Except PyError (List Tool)
  | [] => .ok []
  | t :: rest => do
    let tool ← _tool_from_stackone_tool t
    let wrapped_rest ← wrap_each rest
    pure (tool :: wrapped_rest)

/-- Embedding of `StackOneToolset.__init__` up to the final
`super().__init__(pydantic_tools, id=id)`: it returns the list of wrapped
tools handed to `FunctionToolset` (modelled from the spec: the host
framework's `FunctionToolset`, not under `src/`, stores that collection as
the toolset's contents). Exceptions raised along the way surface as
`Except.error`. -/
def stackone_toolset_init (ctor : SDKArgs → StackOneToolSet)
    (create_feedback_tool : FeedbackArgs → StackOneTool)
    (stackone_api_key_env : Option String)
    (args : ToolsetArgs) : Except PyError (List Tool) := do
  let stackone_toolset := ctor (sdk_args args.api_key args.account_id args.base_url)
  let actions := compute_actions args.tools args.filter_pattern
  let fetched_tools := stackone_toolset.fetch_tools actions
  let pydantic_tools ←
    if args.include_utility_tools then do
      let s ← search_tool fetched_tools args.hybrid_alpha
      let e ← execute_tool fetched_tools
      pure [s, e]
    else
      wrap_each fetched_tools.items
  if args.include_feedback_tool then do
    let fb ← feedback_tool create_feedback_tool stackone_api_key_env
      args.api_key args.account_id args.base_url
    pure (pydantic_tools ++ [fb])
  else
    pure pydantic_tools

/-- Modelled from the spec: selection of remote tools by a pair of include
and exclude name lists, the third filtering mode the spec attributes to
the toolset constructor ("by explicit name list, glob-style pattern(s), or
include/exclude name lists"). Used only to compare the spec's words with
the code. -/
def include_exclude_selection (catalog : List StackOneTool)
    (include_list exclude_list : List String) : List StackOneTool :=
  catalog.filter (fun t => include_list.contains t.name && !(exclude_list.contains t.name))

/-! Concrete instances used by witnesses and counterexamples: a small
well-formed tool, a conforming SDK whose `fetch_tools` returns exactly the
catalog tools whose names are among the requested actions, and a utility
collection holding `tool_search` and `tool_execute`. -/

/-- A well-formed `parameters` schema. -/
def sample_params : JsonValue := JsonValue.obj [("type", JsonValue.str "object")]

/-- A well-formed `to_openai_function()` result for a tool named `nm`. -/
def sample_openai (nm : String) : JsonValue :=
  JsonValue.obj [("type", JsonValue.str "function"),
    ("function", JsonValue.obj [("name", JsonValue.str nm),
      ("parameters", sample_params)])]

/-- A well-formed StackOne tool named `nm`. -/
def sample_stackone_tool (nm : String) : StackOneTool :=
  { name := nm, description := some ("description of " ++ nm),
    to_openai_function := sample_openai nm,
    execute := fun kwargs => JsonValue.obj [("tool", JsonValue.str nm), ("echo", kwargs)] }

/-- A utility-tools collection holding `tool_search` and `tool_execute`. -/
def sample_utility : UtilityToolsCollection :=
  { get_tool := fun nm =>
      if nm = "tool_search" then some (sample_stackone_tool "tool_search")
      else if nm = "tool_execute" then some (sample_stackone_tool "tool_execute")
      else none }

/-- A tools collection over a given catalog, with name lookup and the
sample utility tools. -/
def collection_of (catalog : List StackOneTool) : ToolsCollection :=
  { items := catalog,
    get_tool := fun nm => catalog.find? (fun t => t.name == nm),
    utility_tools := fun _ => sample_utility }

/-- A conforming SDK over a fixed catalog: `fetch_tools(actions=None)`
returns everything, an explicit action list selects by name. -/
def sdk_of (catalog : List StackOneTool) : SDKArgs → StackOneToolSet :=
  fun _ => { fetch_tools := fun actions =>
    match actions with
    | none => collection_of catalog
    | some acts => collection_of (catalog.filter (fun t => acts.contains t.name)) }

/-- A conforming `create_feedback_tool`. -/
def sample_create_fb : FeedbackArgs → StackOneTool :=
  fun _ => sample_stackone_tool "feedback"

/-- A two-tool catalog. -/
def catalog2 : List StackOneTool := [sample_stackone_tool "a", sample_stackone_tool "b"]

/-- A concrete keyword-argument dict. -/
def sample_kwargs : JsonValue := JsonValue.obj [("limit", JsonValue.num 5)]

/-- The wrapped form of the sample tool named `b`. -/
def C6_sample_wrapped : Tool :=
  match _tool_from_stackone_tool (sample_stackone_tool "b") with
  | .ok tool => tool
  | .error _ => Tool.from_schema (fun kwargs => kwargs) "" "" JsonValue.null

/-- Constructor arguments selecting direct mode with no filtering. -/
def direct_args : ToolsetArgs :=
  { tools := none, account_id := none, api_key := none, base_url := none,
    filter_pattern := none, include_utility_tools := false,
    include_feedback_tool := false, hybrid_alpha := none, id := none }

/-- The tool list the direct-mode toolset holds over the sample catalog. -/
def C4_result_tools : List Tool :=
  match stackone_toolset_init (sdk_of catalog2) sample_create_fb none direct_args with
  | .ok l => l
  | .error _ => []

/-- Constructor arguments selecting utility-tools mode. -/
def utility_args : ToolsetArgs :=
  { tools := none, account_id := none, api_key := none, base_url := none,
    filter_pattern := none, include_utility_tools := true,
    include_feedback_tool := false, hybrid_alpha := none, id := none }

/-- The tool list the utility-mode toolset holds over the sample catalog. -/
def C5_result_tools : List Tool :=
  match stackone_toolset_init (sdk_of catalog2) sample_create_fb none utility_args with
  | .ok l => l
  | .error _ => []

/-- Constructor arguments passing a concrete include name list as the
`tools` parameter. -/
def include_args (include_list : List String) : ToolsetArgs :=
  { tools := some include_list, account_id := none, api_key := none,
    base_url := none, filter_pattern := none, include_utility_tools := false,
    include_feedback_tool := false, hybrid_alpha := none, id := none }

/-- The tool list of the toolset built from the include list `["a"]`. -/
def C8_result_tools : List Tool :=
  match stackone_toolset_init (sdk_of catalog2) sample_create_fb none
      (include_args ["a"]) with
  | .ok l => l
  | .error _ => []

/-! Helper lemmas about the shapes of adapter errors. -/

/-- Wrapping a tool can only raise `KeyError`, never `ValueError`. -/
theorem wrap_error_is_key_error (t : StackOneTool) (e : PyError)
    (h : _tool_from_stackone_tool t = .error e) : ∃ k, e = .keyError k := by
  unfold _tool_from_stackone_tool at h
  cases hf : t.to_openai_function.get "function" with
  | none =>
    simp only [hf] at h
    exact ⟨"function", by injection h with h1; exact h1.symm⟩
  | some fn =>
    simp only [hf] at h
    cases hp : fn.get "parameters" with
    | none =>
      simp only [hp] at h
      exact ⟨"parameters", by injection h with h1; exact h1.symm⟩
    | some p =>
      simp only [hp] at h
      exact absurd h (by simp)

/-- The direct-mode loop can only raise `KeyError`. -/
theorem wrap_each_error_is_key_error (items : List StackOneTool) (e : PyError)
    (h : wrap_each items = .error e) : ∃ k, e = .keyError k := by
  induction items with
  | nil => simp [wrap_each] at h
  | cons t rest ih =>
    simp only [wrap_each] at h
    cases hw : _tool_from_stackone_tool t with
    | error e' =>
      rw [hw] at h
      simp only [Bind.bind, Except.bind] at h
      injection h with h1
      exact h1 ▸ wrap_error_is_key_error t e' hw
    | ok tool =>
      rw [hw] at h
      simp only [Bind.bind, Except.bind] at h
      cases hr : wrap_each rest with
      | error e' =>
        rw [hr] at h
        injection h with h1
        exact ih (h1 ▸ hr)
      | ok rest' =>
        rw [hr] at h
        simp [pure, Except.pure] at h

/-- Errors of `search_tool` are the `tool_search` `ValueError` or a
`KeyError` from wrapping. -/
theorem search_tool_error_shape (tools : ToolsCollection)
    (hybrid_alpha : Option Alpha) (e : PyError)
    (h : search_tool tools hybrid_alpha = .error e) :
    e = .valueError tool_search_missing_msg ∨ ∃ k, e = .keyError k := by
  simp only [search_tool] at h
  cases hg : (tools.utility_tools hybrid_alpha).get_tool "tool_search" with
  | none =>
    rw [hg] at h
    injection h with h1
    exact Or.inl h1.symm
  | some s =>
    rw [hg] at h
    exact Or.inr (wrap_error_is_key_error s e h)

/-- Errors of `execute_tool` are the `tool_execute` `ValueError` or a
`KeyError` from wrapping. -/
theorem execute_tool_error_shape (tools : ToolsCollection) (e : PyError)
    (h : execute_tool tools = .error e) :
    e = .valueError tool_execute_missing_msg ∨ ∃ k, e = .keyError k := by
  simp only [execute_tool] at h
  cases hg : (tools.utility_tools none).get_tool "tool_execute" with
  | none =>
    rw [hg] at h
    injection h with h1
    exact Or.inl h1.symm
  | some s =>
    rw [hg] at h
    exact Or.inr (wrap_error_is_key_error s e h)

/-- A successful direct-mode loop wraps the items pointwise, in order. -/
theorem wrap_each_ok_forall2 (items : List StackOneTool) (l : List Tool)
    (h : wrap_each items = .ok l) :
    List.Forall₂ (fun t tool => _tool_from_stackone_tool t = .ok tool) items l := by
  induction items generalizing l with
  | nil =>
    simp only [wrap_each] at h
    injection h with h1
    rw [← h1]
    exact List.Forall₂.nil
  | cons t rest ih =>
    simp only [wrap_each, Bind.bind, Except.bind] at h
    cases hw : _tool_from_stackone_tool t with
    | error e => rw [hw] at h; exact absurd h (by simp)
    | ok tool =>
      rw [hw] at h
      cases hr : wrap_each rest with
      | error e => rw [hr] at h; exact absurd h (by simp)
      | ok wrapped_rest =>
        rw [hr] at h
        simp only [pure, Except.pure] at h
        injection h with h1
        rw [← h1]
        exact List.Forall₂.cons hw (ih wrapped_rest hr)

/-- Wrapping preserves the remote tool's name. -/
theorem wrap_ok_name (t : StackOneTool) (tool : Tool)
    (h : _tool_from_stackone_tool t = .ok tool) : tool.name = t.name := by
  unfold _tool_from_stackone_tool at h
  cases hf : t.to_openai_function.get "function" with
  | none => simp only [hf] at h; exact absurd h (by simp)
  | some fn =>
    simp only [hf] at h
    cases hp : fn.get "parameters" with
    | none => simp only [hp] at h; exact absurd h (by simp)
    | some p =>
      simp only [hp] at h
      injection h with h1
      rw [← h1]
      rfl

/-- Pointwise wrapping preserves the list of names. -/
theorem forall2_map_name (items : List StackOneTool) (l : List Tool)
    (h : List.Forall₂ (fun t tool => _tool_from_stackone_tool t = .ok tool) items l) :
    l.map Tool.name = items.map StackOneTool.name := by
  induction h with
  | nil => rfl
  | cons hw _ ih =>
    simp only [List.map]
    rw [ih, wrap_ok_name _ _ hw]

/-- In direct mode a successful `stackone_toolset_init` is exactly a
successful `wrap_each` over the fetched items. -/
theorem init_direct_mode_ok (ctor : SDKArgs → StackOneToolSet)
    (create_fb : FeedbackArgs → StackOneTool) (env : Option String)
    (args : ToolsetArgs) (l : List Tool)
    (hu : args.include_utility_tools = false)
    (hf : args.include_feedback_tool = false)
    (hok : stackone_toolset_init ctor create_fb env args = .ok l) :
    wrap_each ((ctor (sdk_args args.api_key args.account_id
      args.base_url)).fetch_tools
        (compute_actions args.tools args.filter_pattern)).items = .ok l := by
  simp only [stackone_toolset_init, hu, hf, Bool.false_eq_true, if_false] at hok
  cases hw : wrap_each ((ctor (sdk_args args.api_key args.account_id
      args.base_url)).fetch_tools
        (compute_actions args.tools args.filter_pattern)).items with
  | error e =>
    rw [hw] at hok
    simp only [Bind.bind, Except.bind] at hok
    exact absurd hok (by simp)
  | ok wrapped =>
    rw [hw] at hok
    simp only [Bind.bind, Except.bind, pure, Except.pure] at hok
    injection hok with h1
    exact h1 ▸ rfl


/-! Claim theorems. -/

/-- C1: for every StackOne tool whose `to_openai_function()` result has
the `'function'` and `'parameters'` entries, `_tool_from_stackone_tool`
produces a wrapped tool whose name equals the remote tool's `name`, whose
description equals the remote `description` with `None` replaced by the
empty string, and whose JSON parameter schema equals exactly that
`'parameters'` entry. -/
theorem C1_wrapped_tool_fields (t : StackOneTool) (fn params : JsonValue)
    (hf : t.to_openai_function.get "function" = some fn)
    (hp : fn.get "parameters" = some params) :
    ∃ tool, _tool_from_stackone_tool t = .ok tool ∧
      tool.name = t.name ∧
      tool.description = (match t.description with
        | none => ""
        | some d => d) ∧
      tool.json_schema = params := by
  refine ⟨Tool.from_schema (fun kwargs => t.execute kwargs) t.name
    (match t.description with
      | none => ""
      | some d => d) params, ?_, rfl, rfl, rfl⟩
  unfold _tool_from_stackone_tool
  simp only [hf, hp]

/-- Witness for C1 at the concrete sample tool. -/
theorem C1_wrapped_tool_fields_witness :
    ∃ tool, _tool_from_stackone_tool (sample_stackone_tool "a") = .ok tool ∧
      tool.name = (sample_stackone_tool "a").name ∧
      tool.description = (match (sample_stackone_tool "a").description with
        | none => ""
        | some d => d) ∧
      tool.json_schema = sample_params :=
  C1_wrapped_tool_fields (sample_stackone_tool "a")
    (JsonValue.obj [("name", JsonValue.str "a"), ("parameters", sample_params)])
    sample_params rfl rfl

/-- C2: `tool_from_stackone` fetches with `actions=[tool_name]` and looks
up exactly that one name in the fetched collection; it raises `ValueError`
if and only if that lookup yields `None`, raises no other error in the
lookup step, and returns the wrapped tool when the lookup succeeds. -/
theorem C2_single_tool_lookup (ctor : SDKArgs → StackOneToolSet)
    (tool_name : String) (account_id api_key base_url : Option String) :
    ((∃ msg, tool_from_stackone ctor tool_name account_id api_key base_url =
        .error (.valueError msg)) ↔
      ((ctor (sdk_args api_key account_id base_url)).fetch_tools
        (some [tool_name])).get_tool tool_name = none) ∧
    (∀ t, ((ctor (sdk_args api_key account_id base_url)).fetch_tools
        (some [tool_name])).get_tool tool_name = some t →
      tool_from_stackone ctor tool_name account_id api_key base_url =
        _tool_from_stackone_tool t) := by
  constructor
  · constructor
    · rintro ⟨msg, hmsg⟩
      simp only [tool_from_stackone] at hmsg
      cases hg : ((ctor (sdk_args api_key account_id base_url)).fetch_tools
          (some [tool_name])).get_tool tool_name with
      | none => rfl
      | some t =>
        rw [hg] at hmsg
        obtain ⟨k, hk⟩ := wrap_error_is_key_error t _ hmsg
        exact absurd hk (by simp)
    · intro hg
      exact ⟨tool_not_found_msg tool_name, by simp only [tool_from_stackone, hg]⟩
  · intro t hg
    simp only [tool_from_stackone, hg]

/-- Witness for C2 at a concrete conforming SDK and tool name. -/
theorem C2_single_tool_lookup_witness :
    ((∃ msg, tool_from_stackone (sdk_of catalog2) "a" none none none =
        .error (.valueError msg)) ↔
      ((sdk_of catalog2 (sdk_args none none none)).fetch_tools
        (some ["a"])).get_tool "a" = none) ∧
    (∀ t, ((sdk_of catalog2 (sdk_args none none none)).fetch_tools
        (some ["a"])).get_tool "a" = some t →
      tool_from_stackone (sdk_of catalog2) "a" none none none =
        _tool_from_stackone_tool t) :=
  C2_single_tool_lookup (sdk_of catalog2) "a" none none none

/-- C3: the fetch filter precedence in `StackOneToolset.__init__`: a given
`tools` name list is used as the action list and `filter_pattern` is
ignored; otherwise a string `filter_pattern` is sent as a one-element
list, a list `filter_pattern` is sent as-is, and when both are `None` the
fetch is called with `None`. -/
theorem C3_fetch_filter_precedence :
    (∀ tool_names filter_pattern,
      compute_actions (some tool_names) filter_pattern = some tool_names) ∧
    (∀ s, compute_actions none (some (.str s)) = some [s]) ∧
    (∀ patterns, compute_actions none (some (.list patterns)) = some patterns) ∧
    compute_actions none none = none :=
  ⟨fun _ _ => rfl, fun _ => rfl, fun _ => rfl, rfl⟩

/-- C6: invoking the callable of a wrapped tool on a keyword-argument dict
returns exactly the remote tool's `execute` applied to that same dict. -/
theorem C6_wrapped_call_forwards_execute (t : StackOneTool) (tool : Tool)
    (h : _tool_from_stackone_tool t = .ok tool) (kwargs : JsonValue) :
    tool.function kwargs = t.execute kwargs := by
  unfold _tool_from_stackone_tool at h
  cases hf : t.to_openai_function.get "function" with
  | none => simp only [hf] at h; exact absurd h (by simp)
  | some fn =>
    simp only [hf] at h
    cases hp : fn.get "parameters" with
    | none => simp only [hp] at h; exact absurd h (by simp)
    | some p =>
      simp only [hp] at h
      injection h with h1
      rw [← h1]
      rfl


/-- Witness for C6 at the concrete sample tool and dict. -/
theorem C6_wrapped_call_forwards_execute_witness :
    C6_sample_wrapped.function sample_kwargs =
      (sample_stackone_tool "b").execute sample_kwargs :=
  C6_wrapped_call_forwards_execute (sample_stackone_tool "b") C6_sample_wrapped
    rfl sample_kwargs

/-- C4: in direct mode (`include_utility_tools=False`,
`include_feedback_tool=False`) a successfully constructed toolset holds
exactly one wrapped tool per remote tool of the fetched collection, in
the fetched iteration order, and nothing else. -/
theorem C4_direct_mode_wraps_each (ctor : SDKArgs → StackOneToolSet)
    (create_fb : FeedbackArgs → StackOneTool) (env : Option String)
    (args : ToolsetArgs) (l : List Tool)
    (hu : args.include_utility_tools = false)
    (hf : args.include_feedback_tool = false)
    (hok : stackone_toolset_init ctor create_fb env args = .ok l) :
    List.Forall₂ (fun t tool => _tool_from_stackone_tool t = .ok tool)
      ((ctor (sdk_args args.api_key args.account_id args.base_url)).fetch_tools
        (compute_actions args.tools args.filter_pattern)).items l :=
  wrap_each_ok_forall2 _ l (init_direct_mode_ok ctor create_fb env args l hu hf hok)


/-- Witness for C4 at a concrete conforming SDK in direct mode. -/
theorem C4_direct_mode_wraps_each_witness :
    List.Forall₂ (fun t tool => _tool_from_stackone_tool t = .ok tool)
      ((sdk_of catalog2 (sdk_args none none none)).fetch_tools
        (compute_actions none none)).items C4_result_tools :=
  C4_direct_mode_wraps_each (sdk_of catalog2) sample_create_fb none direct_args
    C4_result_tools rfl rfl rfl

/-- C5: with `include_utility_tools=True` a successfully constructed
toolset holds the wrapped `tool_search` and `tool_execute` utility tools
in that order, followed by the feedback tool exactly when
`include_feedback_tool=True`, and none of the fetched tools appears
directly. -/
theorem C5_utility_mode_tools (ctor : SDKArgs → StackOneToolSet)
    (create_fb : FeedbackArgs → StackOneTool) (env : Option String)
    (args : ToolsetArgs) (l : List Tool)
    (hu : args.include_utility_tools = true)
    (hok : stackone_toolset_init ctor create_fb env args = .ok l) :
    ∃ s e,
      search_tool ((ctor (sdk_args args.api_key args.account_id
          args.base_url)).fetch_tools
        (compute_actions args.tools args.filter_pattern)) args.hybrid_alpha = .ok s ∧
      execute_tool ((ctor (sdk_args args.api_key args.account_id
          args.base_url)).fetch_tools
        (compute_actions args.tools args.filter_pattern)) = .ok e ∧
      ((args.include_feedback_tool = false ∧ l = [s, e]) ∨
       (∃ fb, args.include_feedback_tool = true ∧
          feedback_tool create_fb env args.api_key args.account_id
            args.base_url = .ok fb ∧
          l = [s, e, fb])) := by
  simp only [stackone_toolset_init, hu, if_true] at hok
  cases hs : search_tool ((ctor (sdk_args args.api_key args.account_id
      args.base_url)).fetch_tools
        (compute_actions args.tools args.filter_pattern)) args.hybrid_alpha with
  | error e =>
    rw [hs] at hok
    simp only [Bind.bind, Except.bind] at hok
    exact absurd hok (by simp)
  | ok s =>
    rw [hs] at hok
    simp only [Bind.bind, Except.bind] at hok
    cases he : execute_tool ((ctor (sdk_args args.api_key args.account_id
        args.base_url)).fetch_tools
          (compute_actions args.tools args.filter_pattern)) with
    | error e =>
      rw [he] at hok
      exact absurd hok (by simp)
    | ok ex =>
      rw [he] at hok
      refine ⟨s, ex, rfl, rfl, ?_⟩
      simp only [pure, Except.pure] at hok
      cases hfb : args.include_feedback_tool with
      | false =>
        rw [hfb] at hok
        simp only [Bool.false_eq_true, if_false] at hok
        injection hok with h1
        exact Or.inl ⟨rfl, h1.symm⟩
      | true =>
        rw [hfb] at hok
        simp only [if_true] at hok
        cases hft : feedback_tool create_fb env args.api_key args.account_id
            args.base_url with
        | error e =>
          rw [hft] at hok
          exact absurd hok (by simp)
        | ok fb =>
          rw [hft] at hok
          injection hok with h1
          exact Or.inr ⟨fb, rfl, rfl, h1.symm⟩


/-- Witness for C5 at a concrete conforming SDK in utility-tools mode. -/
theorem C5_utility_mode_tools_witness :
    ∃ s e,
      search_tool ((sdk_of catalog2 (sdk_args none none none)).fetch_tools
        (compute_actions none none)) none = .ok s ∧
      execute_tool ((sdk_of catalog2 (sdk_args none none none)).fetch_tools
        (compute_actions none none)) = .ok e ∧
      ((false = false ∧ C5_result_tools = [s, e]) ∨
       (∃ fb, false = true ∧
          feedback_tool sample_create_fb none none none none = .ok fb ∧
          C5_result_tools = [s, e, fb])) :=
  C5_utility_mode_tools (sdk_of catalog2) sample_create_fb none utility_args
    C5_result_tools rfl rfl

/-- C7: `search_tool` raises `ValueError` iff the utility collection has
no `tool_search`; `execute_tool` raises `ValueError` iff it has no
`tool_execute`; otherwise each returns the wrapped corresponding utility
tool. -/
theorem C7_utility_lookup_errors (tools : ToolsCollection)
    (hybrid_alpha : Option Alpha) :
    ((∃ msg, search_tool tools hybrid_alpha = .error (.valueError msg)) ↔
      (tools.utility_tools hybrid_alpha).get_tool "tool_search" = none) ∧
    (∀ s, (tools.utility_tools hybrid_alpha).get_tool "tool_search" = some s →
      search_tool tools hybrid_alpha = _tool_from_stackone_tool s) ∧
    ((∃ msg, execute_tool tools = .error (.valueError msg)) ↔
      (tools.utility_tools none).get_tool "tool_execute" = none) ∧
    (∀ ex, (tools.utility_tools none).get_tool "tool_execute" = some ex →
      execute_tool tools = _tool_from_stackone_tool ex) := by
  refine ⟨⟨?_, ?_⟩, ?_, ⟨?_, ?_⟩, ?_⟩
  · rintro ⟨msg, hmsg⟩
    simp only [search_tool] at hmsg
    cases hg : (tools.utility_tools hybrid_alpha).get_tool "tool_search" with
    | none => rfl
    | some s =>
      rw [hg] at hmsg
      obtain ⟨k, hk⟩ := wrap_error_is_key_error s _ hmsg
      exact absurd hk (by simp)
  · intro hg
    exact ⟨tool_search_missing_msg, by simp only [search_tool, hg]⟩
  · intro s hg
    simp only [search_tool, hg]
  · rintro ⟨msg, hmsg⟩
    simp only [execute_tool] at hmsg
    cases hg : (tools.utility_tools none).get_tool "tool_execute" with
    | none => rfl
    | some ex =>
      rw [hg] at hmsg
      obtain ⟨k, hk⟩ := wrap_error_is_key_error ex _ hmsg
      exact absurd hk (by simp)
  · intro hg
    exact ⟨tool_execute_missing_msg, by simp only [execute_tool, hg]⟩
  · intro ex hg
    simp only [execute_tool, hg]

/-- Witness for C7 at the concrete sample collection. -/
theorem C7_utility_lookup_errors_witness :
    ((∃ msg, search_tool (collection_of catalog2) none = .error (.valueError msg)) ↔
      ((collection_of catalog2).utility_tools none).get_tool "tool_search" = none) ∧
    (∀ s, ((collection_of catalog2).utility_tools none).get_tool "tool_search" = some s →
      search_tool (collection_of catalog2) none = _tool_from_stackone_tool s) ∧
    ((∃ msg, execute_tool (collection_of catalog2) = .error (.valueError msg)) ↔
      ((collection_of catalog2).utility_tools none).get_tool "tool_execute" = none) ∧
    (∀ ex, ((collection_of catalog2).utility_tools none).get_tool "tool_execute" = some ex →
      execute_tool (collection_of catalog2) = _tool_from_stackone_tool ex) :=
  C7_utility_lookup_errors (collection_of catalog2) none

/-- C8 as stated fails on the code: the constructor accepts no pair of
include and exclude name lists — its only name-list parameter is `tools`.
At the concrete catalog with tools named `a` and `b`, include list
`["a", "b"]` and exclude list `["b"]`, passing the include list through
the one name-list parameter yields a toolset still containing `b`, not
the include-minus-exclude selection `["a"]`. -/
theorem C8_include_exclude_counterexample :
    Except.map (fun l => l.map Tool.name)
      (stackone_toolset_init (sdk_of catalog2) sample_create_fb none
        (include_args ["a", "b"])) = .ok ["a", "b"] ∧
    (include_exclude_selection catalog2 ["a", "b"] ["b"]).map
      StackOneTool.name = ["a"] ∧
    (["a", "b"] : List String) ≠ ["a"] :=
  ⟨rfl, rfl, by decide⟩

/-- C8 amended: the constructor filters by explicit name list or glob
pattern(s) only; an exclude list has no parameter. The `tools` name list
behaves as a pure include filter: over a conforming SDK whose fetch
returns exactly the catalog tools named in the action list, the resulting
toolset holds exactly the include-minus-empty-exclude selection, by name
and in catalog order. -/
theorem C8_include_only_selection (catalog : List StackOneTool)
    (include_list : List String) (create_fb : FeedbackArgs → StackOneTool)
    (env account_id api_key base_url : Option String) (l : List Tool)
    (hok : stackone_toolset_init (sdk_of catalog) create_fb env
      { tools := some include_list, account_id := account_id,
        api_key := api_key, base_url := base_url, filter_pattern := none,
        include_utility_tools := false, include_feedback_tool := false,
        hybrid_alpha := none, id := none } = .ok l) :
    l.map Tool.name =
      (include_exclude_selection catalog include_list []).map
        StackOneTool.name := by
  have hw := init_direct_mode_ok _ _ _ _ _ rfl rfl hok
  have hnames := forall2_map_name _ _ (wrap_each_ok_forall2 _ _ hw)
  rw [hnames]
  have hpred : (fun t : StackOneTool => include_list.contains t.name &&
      !(([] : List String).contains t.name)) =
      (fun t : StackOneTool => include_list.contains t.name) := by
    funext t
    show (include_list.contains t.name && (!false)) = include_list.contains t.name
    rw [Bool.not_false, Bool.and_true]
  simp only [include_exclude_selection, hpred, sdk_of, collection_of,
    compute_actions]

/-- Witness for the amended C8 at the concrete catalog and include list. -/
theorem C8_include_only_selection_witness :
    C8_result_tools.map Tool.name =
      (include_exclude_selection catalog2 ["a"] []).map StackOneTool.name :=
  C8_include_only_selection catalog2 ["a"] sample_create_fb none none none
    none C8_result_tools rfl

/-- C9: `feedback_tool` raises `ValueError` iff its `api_key` argument is
`None` and the STACKONE_API_KEY environment variable is unset; a provided
key takes precedence over the environment variable; and the requirement
is specific to `feedback_tool`: `tool_from_stackone` passes
`api_key=None` through to the SDK and still wraps a found tool, and
`StackOneToolset` without the feedback tool never raises the api-key
`ValueError`. -/
theorem C9_feedback_api_key_requirement (create_fb : FeedbackArgs → StackOneTool)
    (env api_key account_id base_url : Option String) :
    ((∃ msg, feedback_tool create_fb env api_key account_id base_url =
        .error (.valueError msg)) ↔ (api_key = none ∧ env = none)) ∧
    (∀ k, api_key = some k →
      feedback_tool create_fb env api_key account_id base_url =
        _tool_from_stackone_tool (create_fb
          { api_key := k, account_id := account_id,
            base_url := base_url_kwargs base_url })) ∧
    (∀ ctor tool_name t,
      ((ctor (sdk_args none account_id base_url)).fetch_tools
        (some [tool_name])).get_tool tool_name = some t →
      tool_from_stackone ctor tool_name account_id none base_url =
        _tool_from_stackone_tool t) ∧
    (∀ ctor (args : ToolsetArgs), args.include_feedback_tool = false →
      stackone_toolset_init ctor create_fb env args ≠
        .error (.valueError api_key_required_msg)) := by
  refine ⟨⟨?_, ?_⟩, ?_, ?_, ?_⟩
  · rintro ⟨msg, hmsg⟩
    cases hak : api_key with
    | some k =>
      rw [hak] at hmsg
      obtain ⟨k2, hk2⟩ := wrap_error_is_key_error _ _ hmsg
      exact absurd hk2 (by simp)
    | none =>
      rw [hak] at hmsg
      cases he : env with
      | some e =>
        rw [he] at hmsg
        obtain ⟨k2, hk2⟩ := wrap_error_is_key_error _ _ hmsg
        exact absurd hk2 (by simp)
      | none => exact ⟨rfl, rfl⟩
  · rintro ⟨hak, he⟩
    rw [hak, he]
    exact ⟨api_key_required_msg, rfl⟩
  · intro k hak
    rw [hak]
    rfl
  · intro ctor tool_name t hg
    simp only [tool_from_stackone, hg]
  · intro ctor args hfb heq
    simp only [stackone_toolset_init, hfb, Bool.false_eq_true, if_false] at heq
    cases hu : args.include_utility_tools with
    | true =>
      simp only [hu, if_true] at heq
      cases hs : search_tool ((ctor (sdk_args args.api_key args.account_id
          args.base_url)).fetch_tools
            (compute_actions args.tools args.filter_pattern)) args.hybrid_alpha with
      | error e =>
        rw [hs] at heq
        simp only [Bind.bind, Except.bind] at heq
        injection heq with h1
        rcases search_tool_error_shape _ _ _ hs with h2 | ⟨k, h2⟩
        · rw [h2] at h1
          injection h1 with h3
          exact absurd h3 (by decide)
        · rw [h2] at h1
          exact absurd h1 (by simp)
      | ok s =>
        rw [hs] at heq
        simp only [Bind.bind, Except.bind] at heq
        cases he2 : execute_tool ((ctor (sdk_args args.api_key args.account_id
            args.base_url)).fetch_tools
              (compute_actions args.tools args.filter_pattern)) with
        | error e =>
          rw [he2] at heq
          injection heq with h1
          rcases execute_tool_error_shape _ _ he2 with h2 | ⟨k, h2⟩
          · rw [h2] at h1
            injection h1 with h3
            exact absurd h3 (by decide)
          · rw [h2] at h1
            exact absurd h1 (by simp)
        | ok ex =>
          rw [he2] at heq
          simp only [pure, Except.pure] at heq
          exact absurd heq (by simp)
    | false =>
      simp only [hu, Bool.false_eq_true, if_false] at heq
      cases hw : wrap_each ((ctor (sdk_args args.api_key args.account_id
          args.base_url)).fetch_tools
            (compute_actions args.tools args.filter_pattern)).items with
      | error e =>
        rw [hw] at heq
        simp only [Bind.bind, Except.bind] at heq
        injection heq with h1
        obtain ⟨k, h2⟩ := wrap_each_error_is_key_error _ _ hw
        rw [h2] at h1
        exact absurd h1 (by simp)
      | ok wrapped =>
        rw [hw] at heq
        simp only [Bind.bind, Except.bind, pure, Except.pure] at heq
        exact absurd heq (by simp)

/-- Witness for C9 at a concrete provided key and unset environment. -/
theorem C9_feedback_api_key_requirement_witness :
    ((∃ msg, feedback_tool sample_create_fb none (some "key") none none =
        .error (.valueError msg)) ↔
      ((some "key" : Option String) = none ∧ (none : Option String) = none)) ∧
    (∀ k, (some "key" : Option String) = some k →
      feedback_tool sample_create_fb none (some "key") none none =
        _tool_from_stackone_tool (sample_create_fb
          { api_key := k, account_id := none,
            base_url := base_url_kwargs none })) ∧
    (∀ ctor tool_name t,
      ((ctor (sdk_args none none none)).fetch_tools
        (some [tool_name])).get_tool tool_name = some t →
      tool_from_stackone ctor tool_name none none none =
        _tool_from_stackone_tool t) ∧
    (∀ ctor (args : ToolsetArgs), args.include_feedback_tool = false →
      stackone_toolset_init ctor sample_create_fb none args ≠
        .error (.valueError api_key_required_msg)) :=
  C9_feedback_api_key_requirement sample_create_fb none (some "key") none none

/-- C10: the `base_url` argument is forwarded to the SDK constructor only
when truthy: `None` and the empty string both construct the SDK without
any `base_url` keyword — in `tool_from_stackone`, `StackOneToolset` and
`feedback_tool` alike — while a non-empty string is forwarded as-is. -/
theorem C10_base_url_truthiness :
    (base_url_kwargs none = none ∧ base_url_kwargs (some "") = none) ∧
    (∀ u, u ≠ "" → base_url_kwargs (some u) = some u) ∧
    (∀ api_key account_id, sdk_args api_key account_id (some "") =
      sdk_args api_key account_id none) ∧
    (∀ ctor tool_name account_id api_key,
      tool_from_stackone ctor tool_name account_id api_key (some "") =
        tool_from_stackone ctor tool_name account_id api_key none) ∧
    (∀ ctor create_fb env (args : ToolsetArgs),
      stackone_toolset_init ctor create_fb env
          { args with base_url := some "" } =
        stackone_toolset_init ctor create_fb env
          { args with base_url := none }) ∧
    (∀ create_fb env api_key account_id,
      feedback_tool create_fb env api_key account_id (some "") =
        feedback_tool create_fb env api_key account_id none) := by
  refine ⟨⟨rfl, rfl⟩, ?_, fun _ _ => rfl, fun _ _ _ _ => rfl,
    fun _ _ _ _ => rfl, fun _ _ _ _ => rfl⟩
  intro u hu
  simp only [base_url_kwargs, if_neg hu]

/-- Witness for C10 at a concrete non-empty url, discharging the
truthiness hypothesis. -/
theorem C10_base_url_truthiness_witness :
    base_url_kwargs (some "https://custom.api.stackone.com") =
      some "https://custom.api.stackone.com" :=
  C10_base_url_truthiness.2.1 "https://custom.api.stackone.com" (by decide)
